import Mathlib

/-!
Shallow embedding of the Team-Tasks-Dashboard client data layer.

The repository is a React dashboard whose core is a client-side
synchronization layer for two record collections (projects, tasks) kept in
React state, plus a pure permission evaluator and a bounded in-memory
notification feed.  The definitions below are translated directly from the
TypeScript source:

* `src/src/types/index.ts` — the `Project`, `Task` and `Notification` record
  types (string-literal unions become inductives, optional fields become
  `Option`).
* the permission utilities (`isAdmin` … `checkTaskAccess`).
* `src/src/contexts/NotificationContext.tsx` — the notification feed.
* the realtime change handlers and the optimistic create / update / delete
  calls of the tasks and projects hooks, and the fetch error paths.

Impure inputs of the source (current user, `Date.now()`, `new Date()`,
generated ids, and every Supabase response) are passed as explicit
parameters; a remote call's outcome is an `Except`.  A thrown JS error is an
`Except.error` result; state updates through `setX(prev => …)` become pure
functions of the previous list.
-/

namespace Dashboard

/-- Role union from the source: `'admin' | 'member'`. -/
inductive Role
  | admin
  | member
deriving DecidableEq, Repr

/-- Project status union: `'active' | 'completed' | 'archived'`. -/
inductive ProjectStatus
  | active
  | completed
  | archived
deriving DecidableEq, Repr

/-- Task status union: `'todo' | 'in_progress' | 'review' | 'completed'`. -/
inductive TaskStatus
  | todo
  | in_progress
  | review
  | completed
deriving DecidableEq, Repr

/-- Task priority union: `'low' | 'medium' | 'high' | 'urgent'`. -/
inductive TaskPriority
  | low
  | medium
  | high
  | urgent
deriving DecidableEq, Repr

/-- Source `interface Project` of `src/src/types/index.ts`. -/
structure Project where
  id : String
  name : String
  description : Option String
  status : ProjectStatus
  created_by : String
  created_at : String
  updated_at : String
  team_members : Option (List String)
deriving DecidableEq, Repr

/-- Source `interface Task` of `src/src/types/index.ts`. -/
structure Task where
  id : String
  title : String
  description : Option String
  status : TaskStatus
  priority : TaskPriority
  assigned_to : Option String
  project_id : String
  created_by : String
  created_at : String
  updated_at : String
  due_date : Option String
  attachment_url : Option String
deriving DecidableEq, Repr

/-! ## Permission evaluator (permissions utility module) -/

/-- Source `isAdmin(userRole)`. -/
def isAdmin (userRole : Option Role) : Bool :=
  decide (userRole = some Role.admin)

/-- Source `isMember(userRole)`. -/
def isMember (userRole : Option Role) : Bool :=
  decide (userRole = some Role.member)

/-- Source `canCreateProject(userRole)`. -/
def canCreateProject (userRole : Option Role) : Bool := isAdmin userRole

/-- Source `canViewProject(userRole)`: all authenticated users. -/
def canViewProject (userRole : Option Role) : Bool :=
  decide (userRole ≠ none)

/-- Source `canEditProject(userRole)`. -/
def canEditProject (userRole : Option Role) : Bool := isAdmin userRole

/-- Source `canDeleteProject(userRole)`. -/
def canDeleteProject (userRole : Option Role) : Bool := isAdmin userRole

/-- Source `canCreateTask(userRole)`. -/
def canCreateTask (userRole : Option Role) : Bool := isAdmin userRole

/-- Source `canViewTasks(userRole)`: all authenticated users. -/
def canViewTasks (userRole : Option Role) : Bool :=
  decide (userRole ≠ none)

/-- JS truthiness of an optional string (`undefined` and `""` are falsy);
used for the `userId &&` guard in `canEditTask`. -/
def tsTruthy (s : Option String) : Bool :=
  match s with
  | none => false
  | some str => decide (str ≠ "")

/-- Source `canEditTask(userRole, task, userId?)`: admins always; members only when
`userId` is truthy and `task.assigned_to === userId`. -/
def canEditTask (userRole : Option Role) (task : Task) (userId : Option String) : Bool :=
  if isAdmin userRole then true
  else if isMember userRole && tsTruthy userId && decide (task.assigned_to = userId) then true
  else false

/-- Source `canDeleteTask(userRole)`: only admins. -/
def canDeleteTask (userRole : Option Role) : Bool := isAdmin userRole

/-- Source `canAssignTasks(userRole)`: only admins. -/
def canAssignTasks (userRole : Option Role) : Bool := isAdmin userRole

/-- Action argument of `checkProjectAccess`. -/
inductive ProjectAction
  | create
  | view
  | edit
  | delete
deriving DecidableEq, Repr

/-- Action argument of `checkTaskAccess`. -/
inductive TaskAction
  | create
  | view
  | edit
  | delete
  | assign
deriving DecidableEq, Repr

/-- Source `interface PermissionCheck { allowed, reason? }`. -/
structure PermissionCheck where
  allowed : Bool
  reason : Option String
deriving DecidableEq, Repr

/-- Source `checkProjectAccess(action, userRole, project?)`. -/
def checkProjectAccess (action : ProjectAction) (userRole : Option Role)
    (project : Option Project) : PermissionCheck :=
  match action with
  | .create =>
    { allowed := canCreateProject userRole
      reason := if !canCreateProject userRole then some "Only admins can create projects" else none }
  | .view =>
    { allowed := canViewProject userRole
      reason := if !canViewProject userRole then some "You must be logged in to view projects" else none }
  | .edit =>
    match project with
    | none => { allowed := false, reason := some "Project not found" }
    | some _ =>
      { allowed := canEditProject userRole
        reason := if !canEditProject userRole then some "Only admins can edit projects" else none }
  | .delete =>
    match project with
    | none => { allowed := false, reason := some "Project not found" }
    | some _ =>
      { allowed := canDeleteProject userRole
        reason := if !canDeleteProject userRole then some "Only admins can delete projects" else none }

/-- Source `checkTaskAccess(action, userRole, task?, userId?)`. -/
def checkTaskAccess (action : TaskAction) (userRole : Option Role)
    (task : Option Task) (userId : Option String) : PermissionCheck :=
  match action with
  | .create =>
    { allowed := canCreateTask userRole
      reason := if !canCreateTask userRole then some "Only admins can create tasks" else none }
  | .view =>
    { allowed := canViewTasks userRole
      reason := if !canViewTasks userRole then some "You must be logged in to view tasks" else none }
  | .edit =>
    match task with
    | none => { allowed := false, reason := some "Task not found" }
    | some t =>
      { allowed := canEditTask userRole t userId
        reason :=
          if !canEditTask userRole t userId then
            if isAdmin userRole then some "Unknown error"
            else some "You can only edit tasks assigned to you"
          else none }
  | .delete =>
    match task with
    | none => { allowed := false, reason := some "Task not found" }
    | some _ =>
      { allowed := canDeleteTask userRole
        reason := if !canDeleteTask userRole then some "Only admins can delete tasks" else none }
  | .assign =>
    { allowed := canAssignTasks userRole
      reason := if !canAssignTasks userRole then some "Only admins can assign tasks" else none }

/-- The capability matrix of spec §4.2, transcribed from the spec table (not
from the source): admin may do everything; a member may always view, may
edit a task exactly when the task is assigned to the requester, and may do
nothing else.  Written only to be compared with the source's
`checkProjectAccess` / `checkTaskAccess`. -/
def matrixProjectAllowed (action : ProjectAction) (role : Role) : Bool :=
  match role, action with
  | .admin, _ => true
  | .member, .view => true
  | .member, _ => false

/-- Task half of the spec §4.2 matrix (`ownsResource` = the task is assigned
to the requester); transcribed from the spec table, see
`matrixProjectAllowed`. -/
def matrixTaskAllowed (action : TaskAction) (role : Role) (ownsResource : Bool) : Bool :=
  match role, action with
  | .admin, _ => true
  | .member, .view => true
  | .member, .edit => ownsResource
  | .member, _ => false

/-! ## Notification feed (`src/src/contexts/NotificationContext.tsx`) -/

/-- Notification `type` union of `src/src/types/index.ts`. -/
inductive NotificationType
  | project_created
  | project_updated
  | project_deleted
  | task_created
  | task_updated
  | task_deleted
  | task_assigned
  | user_joined
deriving DecidableEq, Repr

/-- The named fields of `Notification.metadata` (the TS index signature
`[key: string]: any` carries no further typed fields). -/
structure NotificationMeta where
  projectId : Option String
  taskId : Option String
  projectName : Option String
  taskTitle : Option String
  userName : Option String
deriving DecidableEq, Repr

/-- Source `interface Notification` of `src/src/types/index.ts`. -/
structure Notification where
  id : String
  type : NotificationType
  title : String
  message : String
  timestamp : String
  read : Bool
  userId : Option String
  metadata : Option NotificationMeta
deriving DecidableEq, Repr

/-- Argument of `addNotification`: `Omit<Notification, 'id' | 'timestamp' | 'read'>`. -/
structure NotificationPayload where
  type : NotificationType
  title : String
  message : String
  userId : Option String
  metadata : Option NotificationMeta
deriving DecidableEq, Repr

/-- The record `addNotification` builds: the payload plus a generated id, the
current timestamp, and `read := false`.  The impure id
(`Date.now() + Math.random()`) and timestamp are parameters. -/
def mkNotification (payload : NotificationPayload) (freshId nowIso : String) : Notification :=
  { id := freshId
    type := payload.type
    title := payload.title
    message := payload.message
    timestamp := nowIso
    read := false
    userId := payload.userId
    metadata := payload.metadata }

/-- Source `addNotification`: `setNotifications(prev => [newNotification, ...prev].slice(0, 50))`. -/
def addNotification (prev : List Notification) (payload : NotificationPayload)
    (freshId nowIso : String) : List Notification :=
  (mkNotification payload freshId nowIso :: prev).take 50

/-- Source `markAsRead(notificationId)`. -/
def markAsRead (prev : List Notification) (notificationId : String) : List Notification :=
  prev.map fun n => if n.id = notificationId then { n with read := true } else n

/-- Source `markAllAsRead()`. -/
def markAllAsRead (prev : List Notification) : List Notification :=
  prev.map fun n => { n with read := true }

/-- Source `removeNotification(notificationId)`. -/
def removeNotification (prev : List Notification) (notificationId : String) : List Notification :=
  prev.filter fun n => decide (n.id ≠ notificationId)

/-- One call against the notification feed, with the impure inputs of an
append carried in the constructor. -/
inductive FeedOp
  | add (payload : NotificationPayload) (freshId nowIso : String)
  | markRead (notificationId : String)
  | markAllRead
  | remove (notificationId : String)
  | clear
deriving Repr

/-- Apply one feed operation to the current list (`clearNotifications` sets `[]`). -/
def applyFeedOp (prev : List Notification) : FeedOp → List Notification
  | .add payload freshId nowIso => addNotification prev payload freshId nowIso
  | .markRead notificationId => markAsRead prev notificationId
  | .markAllRead => markAllAsRead prev
  | .remove notificationId => removeNotification prev notificationId
  | .clear => []

/-- The feed after a sequence of operations, from the initial `useState([])`,
applied oldest first. -/
def runFeed (ops : List FeedOp) : List Notification :=
  ops.foldl applyFeedOp []

/-! ## Realtime change-event handlers

The `postgres_changes` callback of `useProjectsRealtime` /
`useTasksRealtime` (the optimized variants are identical up to cache
invalidation): INSERT prepends `payload.new`, UPDATE replaces by id,
DELETE filters out `payload.old.id`. -/

/-- Tasks INSERT case: `setTasks(prev => [payload.new as Task, ...prev])`. -/
def tasksRealtimeInsertEvent (prev : List Task) (entity : Task) : List Task :=
  entity :: prev

/-- Projects INSERT case: `setProjects(prev => [payload.new as Project, ...prev])`. -/
def projectsRealtimeInsertEvent (prev : List Project) (entity : Project) : List Project :=
  entity :: prev

/-- Tasks DELETE case: `prev.filter(task => task.id !== payload.old.id)`. -/
def tasksRealtimeDeleteEvent (prev : List Task) (oldId : String) : List Task :=
  prev.filter fun t => decide (t.id ≠ oldId)

/-- Projects DELETE case: `prev.filter(project => project.id !== payload.old.id)`. -/
def projectsRealtimeDeleteEvent (prev : List Project) (oldId : String) : List Project :=
  prev.filter fun p => decide (p.id ≠ oldId)

/-! ## Fetch (read) paths -/

/-- The two pieces of hook state a fetch writes: the collection and the
error field.  The source's fetch handlers return nothing and throw nothing
to their caller (the `try`/`catch` absorbs every failure), so the outcome
type has no exception channel. -/
structure FetchState (α : Type) where
  items : List α
  errorMsg : Option String
deriving DecidableEq, Repr

/-- Source `useTasksRealtime.fetchTasks`: on success stores the returned rows and
clears the error; on failure runs `setError('Failed to load tasks')` and
`setTasks([])`.  The previous collection is a parameter only to record that
the source never reads it — the failure branch overwrites it with `[]`. -/
def fetchTasksRealtime (_prevTasks : List Task) (remote : Except String (List Task)) :
    FetchState Task :=
  match remote with
  | .ok data => { items := data, errorMsg := none }
  | .error _ => { items := [], errorMsg := some "Failed to load tasks" }

/-- Source `useProjectsRealtime.fetchProjects`: same shape as `fetchTasksRealtime`,
with `setError('Failed to load projects')` and `setProjects([])` on failure. -/
def fetchProjectsRealtime (_prevProjects : List Project)
    (remote : Except String (List Project)) : FetchState Project :=
  match remote with
  | .ok data => { items := data, errorMsg := none }
  | .error _ => { items := [], errorMsg := some "Failed to load projects" }

/-! ## Optimistic mutation calls (`useProjectsOptimized` / `useTasksOptimized`) -/

/-- Normalized error a mutation call rejects with. -/
inductive MutationError
  | notFound
  | insufficientPermissions
  | remote (message : String)
deriving DecidableEq, Repr

/-- What one mutation call leaves behind: the collection state, the value
returned or the error re-thrown, and whether a network request was issued. -/
structure CallOutcome (σ α : Type) where
  state : σ
  result : Except MutationError α
  remoteIssued : Bool
deriving Repr

/-- Create payload: `Omit<Project, 'id' | 'created_at' | 'updated_at'>`. -/
structure ProjectPayload where
  name : String
  description : Option String
  status : ProjectStatus
  created_by : String
  team_members : Option (List String)
deriving DecidableEq, Repr

/-- Create payload: `Omit<Task, 'id' | 'created_at' | 'updated_at'>`. -/
structure TaskPayload where
  title : String
  description : Option String
  status : TaskStatus
  priority : TaskPriority
  assigned_to : Option String
  project_id : String
  created_by : String
  due_date : Option String
  attachment_url : Option String
deriving DecidableEq, Repr

/-- Source `useProjectsOptimized.createProject`: permission gate, optimistic prepend
of a `temp-<Date.now()>` entry, then the remote insert; on success the temp
entry is replaced by id with the server row, on failure it is filtered out
and the error re-thrown. -/
def createProjectCall (user : Option String) (userRole : Option Role)
    (prev : List Project) (projectData : ProjectPayload) (nowMs : Nat) (nowIso : String)
    (remote : Except String Project) : CallOutcome (List Project) Project :=
  match user with
  | none => { state := prev, result := .error .insufficientPermissions, remoteIssued := false }
  | some uid =>
    if userRole ≠ some Role.admin then
      { state := prev, result := .error .insufficientPermissions, remoteIssued := false }
    else
      let optimisticProject : Project :=
        { id := "temp-" ++ toString nowMs
          name := projectData.name
          description := projectData.description
          status := projectData.status
          created_by := uid
          created_at := nowIso
          updated_at := nowIso
          team_members := projectData.team_members }
      let afterPrepend := optimisticProject :: prev
      match remote with
      | .ok data =>
        { state := afterPrepend.map fun p => if p.id = optimisticProject.id then data else p
          result := .ok data
          remoteIssued := true }
      | .error e =>
        { state := afterPrepend.filter fun p => decide (p.id ≠ optimisticProject.id)
          result := .error (.remote e)
          remoteIssued := true }

/-- Source `useTasksOptimized.createTask`: same shape as `createProjectCall` over
tasks (gate message `'Only admins can create tasks'`). -/
def createTaskCall (user : Option String) (userRole : Option Role)
    (prev : List Task) (taskData : TaskPayload) (nowMs : Nat) (nowIso : String)
    (remote : Except String Task) : CallOutcome (List Task) Task :=
  match user with
  | none => { state := prev, result := .error .insufficientPermissions, remoteIssued := false }
  | some uid =>
    if userRole ≠ some Role.admin then
      { state := prev, result := .error .insufficientPermissions, remoteIssued := false }
    else
      let optimisticTask : Task :=
        { id := "temp-" ++ toString nowMs
          title := taskData.title
          description := taskData.description
          status := taskData.status
          priority := taskData.priority
          assigned_to := taskData.assigned_to
          project_id := taskData.project_id
          created_by := uid
          created_at := nowIso
          updated_at := nowIso
          due_date := taskData.due_date
          attachment_url := taskData.attachment_url }
      let afterPrepend := optimisticTask :: prev
      match remote with
      | .ok data =>
        { state := afterPrepend.map fun t => if t.id = optimisticTask.id then data else t
          result := .ok data
          remoteIssued := true }
      | .error e =>
        { state := afterPrepend.filter fun t => decide (t.id ≠ optimisticTask.id)
          result := .error (.remote e)
          remoteIssued := true }

/-- Source `Partial<Task>` argument of `updateTask`.  An outer `none` means the
property is absent from the patch; for TS-optional fields the inner value is
itself optional (an explicit `undefined` is representable). -/
structure TaskPatch where
  id : Option String
  title : Option String
  description : Option (Option String)
  status : Option TaskStatus
  priority : Option TaskPriority
  assigned_to : Option (Option String)
  project_id : Option String
  created_by : Option String
  created_at : Option String
  updated_at : Option String
  due_date : Option (Option String)
  attachment_url : Option (Option String)
deriving DecidableEq, Repr

/-- The empty patch (`{}`), to build concrete patches from. -/
def TaskPatch.empty : TaskPatch :=
  { id := none, title := none, description := none, status := none, priority := none
    assigned_to := none, project_id := none, created_by := none, created_at := none
    updated_at := none, due_date := none, attachment_url := none }

/-- The optimistic spread `{ ...task, ...updates, updated_at: now }`: every
property present in the patch wins, and `updated_at` is always rewritten to
the refreshed timestamp (so a patch's own `updated_at` is overridden). -/
def applyTaskPatch (t : Task) (u : TaskPatch) (nowIso : String) : Task :=
  { id := u.id.getD t.id
    title := u.title.getD t.title
    description := u.description.getD t.description
    status := u.status.getD t.status
    priority := u.priority.getD t.priority
    assigned_to := u.assigned_to.getD t.assigned_to
    project_id := u.project_id.getD t.project_id
    created_by := u.created_by.getD t.created_by
    created_at := u.created_at.getD t.created_at
    updated_at := nowIso
    due_date := u.due_date.getD t.due_date
    attachment_url := u.attachment_url.getD t.attachment_url }

/-- The inline permission check of `useTasksOptimized.updateTask`:
`userRole === 'admin' || (userRole === 'member' && taskToUpdate.assigned_to === user?.id)`
(`user?.id` is `none` when no user is signed in, and `undefined === undefined`
is true in JS, hence plain `Option` equality). -/
def canEditTaskOptimized (userRole : Option Role) (userId : Option String) (t : Task) : Bool :=
  decide (userRole = some Role.admin) ||
    (decide (userRole = some Role.member) && decide (t.assigned_to = userId))

/-- Source `useTasksOptimized.updateTask`: throws `'Task not found'` before any
network call when the id is absent; otherwise checks the inline permission,
snapshots the found task, applies the patch optimistically with a refreshed
`updated_at`, issues the remote update, and on failure rolls back by mapping
every task whose id equals `taskId` to the snapshot, re-throwing the error. -/
def updateTaskCall (userRole : Option Role) (userId : Option String) (prev : List Task)
    (taskId : String) (updates : TaskPatch) (nowIso : String)
    (remote : Except String Task) : CallOutcome (List Task) Task :=
  match prev.find? (fun t => decide (t.id = taskId)) with
  | none => { state := prev, result := .error .notFound, remoteIssued := false }
  | some taskToUpdate =>
    if canEditTaskOptimized userRole userId taskToUpdate then
      let optimistic := prev.map fun t =>
        if t.id = taskId then applyTaskPatch t updates nowIso else t
      match remote with
      | .ok data =>
        { state := optimistic.map fun t => if t.id = taskId then data else t
          result := .ok data
          remoteIssued := true }
      | .error e =>
        { state := optimistic.map fun t => if t.id = taskId then taskToUpdate else t
          result := .error (.remote e)
          remoteIssued := true }
    else { state := prev, result := .error .insufficientPermissions, remoteIssued := false }

/-- Source `useTasksOptimized.deleteTask`: admin gate, `'Task not found'` before any
network call when the id is absent; otherwise removes the task optimistically
(filter by id), issues the remote delete, and on failure rolls back with
`setTasks(prev => [...prev, taskToDelete])` — the removed task is appended at
the END of the current (already filtered) list — re-throwing the error. -/
def deleteTaskCall (userRole : Option Role) (prev : List Task) (taskId : String)
    (remote : Except String Unit) : CallOutcome (List Task) Unit :=
  if userRole ≠ some Role.admin then
    { state := prev, result := .error .insufficientPermissions, remoteIssued := false }
  else
    match prev.find? (fun t => decide (t.id = taskId)) with
    | none => { state := prev, result := .error .notFound, remoteIssued := false }
    | some taskToDelete =>
      let afterRemove := prev.filter fun t => decide (t.id ≠ taskId)
      match remote with
      | .ok _ => { state := afterRemove, result := .ok (), remoteIssued := true }
      | .error e =>
        { state := afterRemove ++ [taskToDelete]
          result := .error (.remote e)
          remoteIssued := true }

/-! ## Lazy role provisioning (the `PGRST116` branches) -/

/-- JS `a || b` over an optional string: `undefined` and `""` fall through. -/
def tsOrElse (a : Option String) (b : String) : String :=
  match a with
  | none => b
  | some s => if s = "" then b else s

/-- The row the provisioning branches insert into `users`. -/
structure UserRow where
  id : String
  email : String
  full_name : String
  role : Role
deriving DecidableEq, Repr

/-- Row inserted by `useTasksOptimized.fetchTasksData` when the profile fetch
returns `PGRST116`: `full_name: user.user_metadata?.full_name || user.email || 'User'`,
`role: 'member'`. -/
def provisionProfileTasksOptimized (uid : String) (email fullName : Option String) : UserRow :=
  { id := uid
    email := tsOrElse email ""
    full_name := tsOrElse fullName (tsOrElse email "User")
    role := .member }

/-- Row inserted by `useProjectsRealtime.fetchUserRole` in the same
situation: same fields but `role: 'admin'`. -/
def provisionProfileProjectsRealtime (uid : String) (email fullName : Option String) : UserRow :=
  { id := uid
    email := tsOrElse email ""
    full_name := tsOrElse fullName (tsOrElse email "User")
    role := .admin }

/-- Row inserted by `useUserProfile.fetchProfile` in the same situation:
`full_name: user.user_metadata?.full_name || 'User'` (no email fallback),
`role: 'admin'`. -/
def provisionProfileUserProfile (uid : String) (email fullName : Option String) : UserRow :=
  { id := uid
    email := tsOrElse email ""
    full_name := tsOrElse fullName "User"
    role := .admin }

/-! ## Concrete sample records, used by witnesses and counterexamples -/

/-- A concrete task with a chosen id and assignee; the remaining fields are
fixed representative values. -/
def sampleTask (tid : String) (assigned : Option String) : Task :=
  { id := tid
    title := "Write spec"
    description := none
    status := .todo
    priority := .medium
    assigned_to := assigned
    project_id := "p1"
    created_by := "admin-1"
    created_at := "2024-01-01T00:00:00Z"
    updated_at := "2024-01-01T00:00:00Z"
    due_date := none
    attachment_url := none }

/-- A concrete project with a chosen id. -/
def sampleProject (pid : String) : Project :=
  { id := pid
    name := "Dashboard"
    description := none
    status := .active
    created_by := "admin-1"
    created_at := "2024-01-01T00:00:00Z"
    updated_at := "2024-01-01T00:00:00Z"
    team_members := none }

/-- A concrete create payload for projects. -/
def sampleProjectPayload : ProjectPayload :=
  { name := "Dashboard"
    description := none
    status := .active
    created_by := "ignored-by-store"
    team_members := none }

/-- A concrete create payload for tasks. -/
def sampleTaskPayload : TaskPayload :=
  { title := "Write spec"
    description := none
    status := .todo
    priority := .medium
    assigned_to := none
    project_id := "p1"
    created_by := "ignored-by-store"
    due_date := none
    attachment_url := none }

/-- A patch that only moves the status to `completed`. -/
def samplePatchStatus : TaskPatch :=
  { TaskPatch.empty with status := some TaskStatus.completed }

/-- A patch that rewrites the `id` field — well-typed for `Partial<Task>`. -/
def samplePatchSetId : TaskPatch :=
  { TaskPatch.empty with id := some "t2" }

/-! ## Helper lemmas -/

/-- Filtering a freshly prepended element back out of a list whose members
all miss the key returns exactly the original list. -/
theorem filter_fresh_cons {α : Type} (key : α → String) (tempId : String) (x : α)
    (hx : key x = tempId) (l : List α) (hfresh : ∀ a ∈ l, key a ≠ tempId) :
    (x :: l).filter (fun a => decide (key a ≠ tempId)) = l := by
  rw [List.filter_cons, if_neg (by simp [hx])]
  exact List.filter_eq_self.mpr fun a ha => by simpa using hfresh a ha

/-- Mapping the optimistic patch and then the rollback restore over a list
restores the found snapshot at the matched id, provided the patch leaves the
id field alone. -/
theorem find_restore_after_patch (prev : List Task) (taskId : String) (taskToUpdate : Task)
    (updates : TaskPatch) (nowIso : String)
    (hid : updates.id = none)
    (hfound : prev.find? (fun t => decide (t.id = taskId)) = some taskToUpdate) :
    ((prev.map fun t => if t.id = taskId then applyTaskPatch t updates nowIso else t).map
        fun t => if t.id = taskId then taskToUpdate else t).find?
      (fun t => decide (t.id = taskId)) = some taskToUpdate := by
  induction prev with
  | nil => simp at hfound
  | cons a l ih =>
    by_cases h : a.id = taskId
    · rw [List.find?_cons_of_pos _ (by simpa using h)] at hfound
      have ha : a = taskToUpdate := by simpa using hfound
      subst ha
      have hpid : (applyTaskPatch a updates nowIso).id = taskId := by
        simp [applyTaskPatch, hid, h]
      simp only [List.map_cons, if_pos h, if_pos hpid]
      exact List.find?_cons_of_pos _ (by simpa using h)
    · rw [List.find?_cons_of_neg _ (by simpa using h)] at hfound
      simp only [List.map_cons, if_neg h]
      rw [List.find?_cons_of_neg _ (by simpa using h)]
      exact ih hfound

/-! ## Claims -/

/-- C6: ingesting the same remote delete event twice is idempotent — for
every collection and id, the tasks and projects DELETE handlers applied a
second time return the collection left by the first application. -/
theorem claim_C6_delete_ingestion_idempotent :
    ∀ (prevTasks : List Task) (prevProjects : List Project) (oldId : String),
      tasksRealtimeDeleteEvent (tasksRealtimeDeleteEvent prevTasks oldId) oldId
        = tasksRealtimeDeleteEvent prevTasks oldId ∧
      projectsRealtimeDeleteEvent (projectsRealtimeDeleteEvent prevProjects oldId) oldId
        = projectsRealtimeDeleteEvent prevProjects oldId := by
  intro prevTasks prevProjects oldId
  constructor <;>
    simp [tasksRealtimeDeleteEvent, projectsRealtimeDeleteEvent, List.filter_filter]

/-- C8: the default role written when lazily provisioning a first-time
identity differs across call sites — `member` in `useTasksOptimized`, but
`admin` in `useProjectsRealtime` and `useUserProfile` — so the provisioning
functions are not extensionally equal. -/
theorem claim_C8_provisioning_role_inconsistent :
    (∀ (uid : String) (email fullName : Option String),
      (provisionProfileTasksOptimized uid email fullName).role = Role.member ∧
      (provisionProfileProjectsRealtime uid email fullName).role = Role.admin ∧
      (provisionProfileUserProfile uid email fullName).role = Role.admin) ∧
    ¬ ∀ (uid : String) (email fullName : Option String),
        provisionProfileTasksOptimized uid email fullName
          = provisionProfileProjectsRealtime uid email fullName := by
  refine ⟨fun uid email fullName => ⟨rfl, rfl, rfl⟩, fun h => ?_⟩
  have hrole := congrArg UserRow.role (h "u1" none none)
  simp [provisionProfileTasksOptimized, provisionProfileProjectsRealtime] at hrole

/-- C5 counterexample: with a nonempty previous collection, a failing fetch
in `useTasksRealtime.fetchTasks` leaves an EMPTY collection — the previously
held data is cleared, not left untouched as the claim states. -/
theorem claim_C5_counterexample :
    (fetchTasksRealtime [sampleTask "t1" none] (Except.error "network down")).items = [] ∧
    (fetchTasksRealtime [sampleTask "t1" none] (Except.error "network down")).items
        ≠ [sampleTask "t1" none] := by
  exact ⟨rfl, by simp [fetchTasksRealtime]⟩

/-- C5 amended: when a realtime fetch fails, the failure is reported only
through the error-state field (the handler returns normally, nothing is
thrown), but the collection is cleared to `[]` rather than left untouched;
a successful fetch stores the returned rows and clears the error. -/
theorem claim_C5_fetch_failure_clears :
    ∀ (prevTasks : List Task) (prevProjects : List Project) (e : String),
      (fetchTasksRealtime prevTasks (Except.error e)).items = [] ∧
      (fetchTasksRealtime prevTasks (Except.error e)).errorMsg
          = some "Failed to load tasks" ∧
      (fetchProjectsRealtime prevProjects (Except.error e)).items = [] ∧
      (fetchProjectsRealtime prevProjects (Except.error e)).errorMsg
          = some "Failed to load projects" ∧
      ∀ rows : List Task,
        (fetchTasksRealtime prevTasks (Except.ok rows)).items = rows ∧
        (fetchTasksRealtime prevTasks (Except.ok rows)).errorMsg = none := by
  intro prevTasks prevProjects e
  exact ⟨rfl, rfl, rfl, rfl, fun rows => ⟨rfl, rfl⟩⟩

/-- C4 (code bug): ingesting a remote INSERT event whose entity id already
exists is NOT a no-op — both realtime INSERT handlers prepend
unconditionally, so after a confirmed local create of id `srv-1` the insert
echo for `srv-1` leaves two entries with that id and the collection is not
unchanged. -/
theorem claim_C4_insert_echo_duplicates :
    (tasksRealtimeInsertEvent [sampleTask "srv-1" none] (sampleTask "srv-1" none)).countP
        (fun t => decide (t.id = "srv-1")) = 2 ∧
    tasksRealtimeInsertEvent [sampleTask "srv-1" none] (sampleTask "srv-1" none)
        ≠ [sampleTask "srv-1" none] ∧
    (projectsRealtimeInsertEvent [sampleProject "srv-1"] (sampleProject "srv-1")).countP
        (fun p => decide (p.id = "srv-1")) = 2 ∧
    projectsRealtimeInsertEvent [sampleProject "srv-1"] (sampleProject "srv-1")
        ≠ [sampleProject "srv-1"] := by
  refine ⟨rfl, ?_, rfl, ?_⟩ <;>
    simp [tasksRealtimeInsertEvent, projectsRealtimeInsertEvent]

/-- C9: `addNotification` prepends the new record and truncates to the 50
most-recent entries, evicting the oldest first (everything beyond position
49 of the previous list is dropped), so the new record is at the front; and
after every sequence of feed operations starting from the empty feed the
length is at most 50. -/
theorem claim_C9_feed_capped_at_50 :
    (∀ (prev : List Notification) (payload : NotificationPayload) (freshId nowIso : String),
      addNotification prev payload freshId nowIso
          = mkNotification payload freshId nowIso :: prev.take 49 ∧
      (addNotification prev payload freshId nowIso).head?
          = some (mkNotification payload freshId nowIso) ∧
      (addNotification prev payload freshId nowIso).length ≤ 50) ∧
    ∀ ops : List FeedOp, (runFeed ops).length ≤ 50 := by
  constructor
  · intro prev payload freshId nowIso
    exact ⟨rfl, rfl, List.length_take_le 50 _⟩
  · intro ops
    suffices h : ∀ (ops : List FeedOp) (acc : List Notification),
        acc.length ≤ 50 → (ops.foldl applyFeedOp acc).length ≤ 50 by
      exact h ops [] (by simp)
    intro ops
    induction ops with
    | nil => intro acc h; simpa using h
    | cons op rest ih =>
      intro acc h
      refine ih (applyFeedOp acc op) ?_
      cases op with
      | add payload freshId nowIso => exact List.length_take_le 50 _
      | markRead notificationId => simpa [applyFeedOp, markAsRead] using h
      | markAllRead => simpa [applyFeedOp, markAllAsRead] using h
      | remove notificationId =>
        exact le_trans (List.length_filter_le _ acc) h
      | clear => simp [applyFeedOp]

/-- C10: `markAsRead` preserves the feed's length and order; at every
position all fields other than `read` (id, type, title, message, timestamp,
userId, metadata) are unchanged, and the `read` field of the entry at each
position becomes `read || (id = argument)` — true on the matching
notification, untouched on every other. -/
theorem claim_C10_markAsRead_frame :
    ∀ (prev : List Notification) (notificationId : String) (i : Nat),
      (markAsRead prev notificationId).length = prev.length ∧
      ((markAsRead prev notificationId)[i]?).map
          (fun n => (n.id, n.type, n.title, n.message, n.timestamp, n.userId, n.metadata))
        = (prev[i]?).map
          (fun n => (n.id, n.type, n.title, n.message, n.timestamp, n.userId, n.metadata)) ∧
      ((markAsRead prev notificationId)[i]?).map Notification.read
        = (prev[i]?).map (fun n => n.read || decide (n.id = notificationId)) := by
  intro prev notificationId i
  refine ⟨by simp [markAsRead], ?_, ?_⟩ <;>
  · simp only [markAsRead, List.getElem?_map, Option.map_map]
    cases prev[i]? with
    | none => rfl
    | some n =>
      by_cases h : n.id = notificationId <;> simp [Function.comp, h]

/-- C7: for every action, role and ownership combination of the spec §4.2
capability matrix (resource and requester supplied, requester id nonempty),
`checkTaskAccess` and `checkProjectAccess` return exactly the matrix's
allowed boolean. -/
theorem claim_C7_permission_matrix
    (taskAction : TaskAction) (projectAction : ProjectAction) (role : Role)
    (task : Task) (project : Project) (uid : String) (huid : uid ≠ "") :
    (checkTaskAccess taskAction (some role) (some task) (some uid)).allowed
        = matrixTaskAllowed taskAction role (decide (task.assigned_to = some uid)) ∧
    (checkProjectAccess projectAction (some role) (some project)).allowed
        = matrixProjectAllowed projectAction role := by
  constructor
  · cases role <;> cases taskAction <;>
      simp [checkTaskAccess, matrixTaskAllowed, canCreateTask, canViewTasks, canEditTask,
        canDeleteTask, canAssignTasks, isAdmin, isMember, tsTruthy, huid]
  · cases role <;> cases projectAction <;>
      simp [checkProjectAccess, matrixProjectAllowed, canCreateProject, canViewProject,
        canEditProject, canDeleteProject, isAdmin]

/-- C7 witness: the matrix agreement evaluated for a member editing a task
assigned to them (requester `me`) and a member deleting a project. -/
theorem claim_C7_permission_matrix_witness :
    (checkTaskAccess TaskAction.edit (some Role.member)
        (some (sampleTask "t1" (some "me"))) (some "me")).allowed
      = matrixTaskAllowed TaskAction.edit Role.member
          (decide ((sampleTask "t1" (some "me")).assigned_to = some "me")) ∧
    (checkProjectAccess ProjectAction.delete (some Role.member)
        (some (sampleProject "p1"))).allowed
      = matrixProjectAllowed ProjectAction.delete Role.member :=
  claim_C7_permission_matrix TaskAction.edit ProjectAction.delete Role.member
    (sampleTask "t1" (some "me")) (sampleProject "p1") "me" (by decide)

/-- C1: when the remote insert rejects (and the call was allowed to reach
it: a user is signed in with role admin), both `createProject` and
`createTask` leave a collection with the same length as before the call and
containing no entity with the temporary id introduced by that call, and
re-throw the error.  The hypotheses say the generated temporary id is fresh
for the pre-call collection (the source generates it from `Date.now()`). -/
theorem claim_C1_create_rollback
    (uid : String) (prevProjects : List Project) (projectData : ProjectPayload)
    (prevTasks : List Task) (taskData : TaskPayload) (nowMs : Nat) (nowIso msg : String)
    (hfreshP : ∀ p ∈ prevProjects, p.id ≠ "temp-" ++ toString nowMs)
    (hfreshT : ∀ t ∈ prevTasks, t.id ≠ "temp-" ++ toString nowMs) :
    ((createProjectCall (some uid) (some Role.admin) prevProjects projectData nowMs nowIso
        (Except.error msg)).state.length = prevProjects.length ∧
      (∀ p ∈ (createProjectCall (some uid) (some Role.admin) prevProjects projectData nowMs
          nowIso (Except.error msg)).state, p.id ≠ "temp-" ++ toString nowMs) ∧
      (createProjectCall (some uid) (some Role.admin) prevProjects projectData nowMs nowIso
        (Except.error msg)).result = Except.error (MutationError.remote msg)) ∧
    ((createTaskCall (some uid) (some Role.admin) prevTasks taskData nowMs nowIso
        (Except.error msg)).state.length = prevTasks.length ∧
      (∀ t ∈ (createTaskCall (some uid) (some Role.admin) prevTasks taskData nowMs nowIso
          (Except.error msg)).state, t.id ≠ "temp-" ++ toString nowMs) ∧
      (createTaskCall (some uid) (some Role.admin) prevTasks taskData nowMs nowIso
        (Except.error msg)).result = Except.error (MutationError.remote msg)) := by
  have hP : (createProjectCall (some uid) (some Role.admin) prevProjects projectData nowMs
      nowIso (Except.error msg)).state = prevProjects := by
    exact filter_fresh_cons Project.id ("temp-" ++ toString nowMs) _ rfl prevProjects hfreshP
  have hT : (createTaskCall (some uid) (some Role.admin) prevTasks taskData nowMs nowIso
      (Except.error msg)).state = prevTasks := by
    exact filter_fresh_cons Task.id ("temp-" ++ toString nowMs) _ rfl prevTasks hfreshT
  rw [hP, hT]
  exact ⟨⟨rfl, hfreshP, rfl⟩, ⟨rfl, hfreshT, rfl⟩⟩

/-- C1 witness: the create-rollback conclusions evaluated on empty pre-call
collections with concrete payloads. -/
theorem claim_C1_create_rollback_witness :
    ((createProjectCall (some "admin-1") (some Role.admin) [] sampleProjectPayload
        1700000000000 "2024-01-01T00:00:00Z" (Except.error "insert rejected")).state.length
      = ([] : List Project).length ∧
      (∀ p ∈ (createProjectCall (some "admin-1") (some Role.admin) [] sampleProjectPayload
          1700000000000 "2024-01-01T00:00:00Z" (Except.error "insert rejected")).state,
        p.id ≠ "temp-" ++ toString 1700000000000) ∧
      (createProjectCall (some "admin-1") (some Role.admin) [] sampleProjectPayload
        1700000000000 "2024-01-01T00:00:00Z" (Except.error "insert rejected")).result
      = Except.error (MutationError.remote "insert rejected")) ∧
    ((createTaskCall (some "admin-1") (some Role.admin) [] sampleTaskPayload
        1700000000000 "2024-01-01T00:00:00Z" (Except.error "insert rejected")).state.length
      = ([] : List Task).length ∧
      (∀ t ∈ (createTaskCall (some "admin-1") (some Role.admin) [] sampleTaskPayload
          1700000000000 "2024-01-01T00:00:00Z" (Except.error "insert rejected")).state,
        t.id ≠ "temp-" ++ toString 1700000000000) ∧
      (createTaskCall (some "admin-1") (some Role.admin) [] sampleTaskPayload
        1700000000000 "2024-01-01T00:00:00Z" (Except.error "insert rejected")).result
      = Except.error (MutationError.remote "insert rejected")) :=
  claim_C1_create_rollback "admin-1" [] sampleProjectPayload [] sampleTaskPayload
    1700000000000 "2024-01-01T00:00:00Z" "insert rejected"
    (by simp) (by simp)

/-- C2 counterexample: `Partial<Task>` may set `id`; updating `t1` with the
patch `{ id: "t2" }` and a rejecting remote leaves NO entity at id `t1`
(the rollback map matches on `t1` but the optimistic entry now carries id
`t2`), refuting "the entity stored at that id equals the pre-call snapshot
for every partial payload". -/
theorem claim_C2_update_counterexample :
    (updateTaskCall (some Role.admin) (some "admin-1") [sampleTask "t1" none] "t1"
        samplePatchSetId "2024-01-02T00:00:00Z" (Except.error "update rejected")).result
      = Except.error (MutationError.remote "update rejected") ∧
    (updateTaskCall (some Role.admin) (some "admin-1") [sampleTask "t1" none] "t1"
        samplePatchSetId "2024-01-02T00:00:00Z" (Except.error "update rejected")).state.find?
        (fun t => decide (t.id = "t1"))
      = none := by
  exact ⟨rfl, rfl⟩

/-- C2 amended: for every id present in the collection and every partial
payload that leaves the `id` field alone, if the remote update rejects then
the entity found at that id is exactly the pre-call snapshot and the error
is re-thrown; and for every collection in which the id is absent the call
fails with `notFound` immediately, issuing no network request and leaving
the state unchanged. -/
theorem claim_C2_update_rollback
    (userRole : Option Role) (userId : Option String) (prev : List Task)
    (taskId : String) (updates : TaskPatch) (nowIso msg : String) (taskToUpdate : Task)
    (hfound : prev.find? (fun t => decide (t.id = taskId)) = some taskToUpdate)
    (hid : updates.id = none)
    (hperm : canEditTaskOptimized userRole userId taskToUpdate = true) :
    (updateTaskCall userRole userId prev taskId updates nowIso (Except.error msg)).state.find?
        (fun t => decide (t.id = taskId)) = some taskToUpdate ∧
    (updateTaskCall userRole userId prev taskId updates nowIso (Except.error msg)).result
        = Except.error (MutationError.remote msg) ∧
    ∀ prev2 : List Task,
      prev2.find? (fun t => decide (t.id = taskId)) = none →
      (updateTaskCall userRole userId prev2 taskId updates nowIso (Except.error msg)).state
          = prev2 ∧
      (updateTaskCall userRole userId prev2 taskId updates nowIso (Except.error msg)).result
          = Except.error MutationError.notFound ∧
      (updateTaskCall userRole userId prev2 taskId updates nowIso
        (Except.error msg)).remoteIssued = false := by
  have hcall : updateTaskCall userRole userId prev taskId updates nowIso (Except.error msg)
      = { state := (prev.map fun t =>
            if t.id = taskId then applyTaskPatch t updates nowIso else t).map
              fun t => if t.id = taskId then taskToUpdate else t
          result := .error (.remote msg)
          remoteIssued := true } := by
    unfold updateTaskCall
    rw [hfound]
    simp only [hperm, if_true]
  rw [hcall]
  refine ⟨find_restore_after_patch prev taskId taskToUpdate updates nowIso hid hfound,
    rfl, ?_⟩
  intro prev2 h2
  unfold updateTaskCall
  rw [h2]
  exact ⟨rfl, rfl, rfl⟩

/-- C2 witness: the rollback conclusions evaluated for admin updating the
status of task `t1` in a one-element collection with a rejecting remote. -/
theorem claim_C2_update_rollback_witness :
    (updateTaskCall (some Role.admin) (some "admin-1") [sampleTask "t1" none] "t1"
        samplePatchStatus "2024-01-02T00:00:00Z" (Except.error "update rejected")).state.find?
        (fun t => decide (t.id = "t1")) = some (sampleTask "t1" none) ∧
    (updateTaskCall (some Role.admin) (some "admin-1") [sampleTask "t1" none] "t1"
        samplePatchStatus "2024-01-02T00:00:00Z" (Except.error "update rejected")).result
      = Except.error (MutationError.remote "update rejected") :=
  ⟨(claim_C2_update_rollback (some Role.admin) (some "admin-1") [sampleTask "t1" none] "t1"
      samplePatchStatus "2024-01-02T00:00:00Z" "update rejected" (sampleTask "t1" none)
      rfl rfl rfl).1,
   (claim_C2_update_rollback (some Role.admin) (some "admin-1") [sampleTask "t1" none] "t1"
      samplePatchStatus "2024-01-02T00:00:00Z" "update rejected" (sampleTask "t1" none)
      rfl rfl rfl).2.1⟩

/-- C3 counterexample: deleting `a` from `[a, b]` with a rejecting remote
leaves `[b, a]` — the removed task reappears at the END (index 1), not at
its original index 0, refuting the claim as stated. -/
theorem claim_C3_delete_counterexample :
    (deleteTaskCall (some Role.admin) [sampleTask "a" none, sampleTask "b" none] "a"
        (Except.error "delete rejected")).state
      = [sampleTask "b" none, sampleTask "a" none] ∧
    (deleteTaskCall (some Role.admin) [sampleTask "a" none, sampleTask "b" none] "a"
        (Except.error "delete rejected")).state[0]? ≠ some (sampleTask "a" none) ∧
    (deleteTaskCall (some Role.admin) [sampleTask "a" none, sampleTask "b" none] "a"
        (Except.error "delete rejected")).result
      = Except.error (MutationError.remote "delete rejected") := by
  refine ⟨rfl, ?_, rfl⟩
  decide

/-- C3 amended: for every id present in the collection, if the remote delete
rejects then the removed entity reappears with all of its original fields
intact, but APPENDED AT THE END of the collection (`[...prev, taskToDelete]`)
rather than at its original index, and the error is re-thrown. -/
theorem claim_C3_delete_rollback
    (prev : List Task) (taskId msg : String) (taskToDelete : Task)
    (hfound : prev.find? (fun t => decide (t.id = taskId)) = some taskToDelete) :
    (deleteTaskCall (some Role.admin) prev taskId (Except.error msg)).state
        = prev.filter (fun t => decide (t.id ≠ taskId)) ++ [taskToDelete] ∧
    (deleteTaskCall (some Role.admin) prev taskId (Except.error msg)).state.getLast?
        = some taskToDelete ∧
    taskToDelete ∈ (deleteTaskCall (some Role.admin) prev taskId (Except.error msg)).state ∧
    (deleteTaskCall (some Role.admin) prev taskId (Except.error msg)).result
        = Except.error (MutationError.remote msg) := by
  have hcall : deleteTaskCall (some Role.admin) prev taskId (Except.error msg)
      = { state := prev.filter (fun t => decide (t.id ≠ taskId)) ++ [taskToDelete]
          result := .error (.remote msg)
          remoteIssued := true } := by
    unfold deleteTaskCall
    rw [if_neg (by simp), hfound]
  rw [hcall]
  refine ⟨rfl, List.getLast?_concat _, ?_, rfl⟩
  simp

/-- C3 witness: the amended rollback conclusions evaluated for deleting the
only task of a one-element collection with a rejecting remote. -/
theorem claim_C3_delete_rollback_witness :
    (deleteTaskCall (some Role.admin) [sampleTask "a" none] "a"
        (Except.error "delete rejected")).state.getLast? = some (sampleTask "a" none) ∧
    (deleteTaskCall (some Role.admin) [sampleTask "a" none] "a"
        (Except.error "delete rejected")).result
      = Except.error (MutationError.remote "delete rejected") :=
  ⟨(claim_C3_delete_rollback [sampleTask "a" none] "a" "delete rejected"
      (sampleTask "a" none) rfl).2.1,
   (claim_C3_delete_rollback [sampleTask "a" none] "a" "delete rejected"
      (sampleTask "a" none) rfl).2.2.2⟩

end Dashboard
